import Mathlib

set_option maxRecDepth 100000

/-!
Verification development for the newapi-ai-check-in repository.

The Python sources are shallowly embedded as executable Lean functions:

* Python `dict`s become association lists manipulated through `dget` /
  `dset` / `dUpdate`, which reproduce insertion-order replacement
  semantics of CPython dicts;
* JSON values become the inductive `Json`, with Python truthiness as
  `Json.truthy`;
* code that can raise is embedded in `Except String`, where the string
  names the Python exception class;
* `print` statements are dropped, but any expression computed for a log
  line that can raise is kept, so the exception behaviour of each
  function is preserved;
* browser and network effects are inputs: each embedded function takes
  the data the external call would have produced (HTTP responses,
  cookies observed in the browser, the page's `navigator.userAgent`,
  whether a Cloudflare challenge was seen) as explicit arguments.
-/

namespace NewapiCheckin

/-! ### Association-list model of Python dicts -/

/-- Left-biased choice on options. -/
def oOr {α : Type} (x y : Option α) : Option α :=
  match x with
  | some v => some v
  | none => y

/-- First binding of key `k` in an association list (Python dict lookup). -/
def dget {α : Type} : List (String × α) → String → Option α
  | [], _ => none
  | (k₁, v₁) :: t, k => if k₁ == k then some v₁ else dget t k

/-- Lookup with default (Python `dict.get(k, default)`). -/
def dgetD {α : Type} (d : List (String × α)) (k : String) (v₀ : α) : α :=
  (dget d k).getD v₀

/-- Key-membership test (Python `k in d`). -/
def dMember {α : Type} (d : List (String × α)) (k : String) : Bool :=
  (dget d k).isSome

/-- `d[k] = v` on a Python dict: replace the first binding of `k` in
place, or append a fresh binding at the end. -/
def dset {α : Type} (d : List (String × α)) (k : String) (v : α) :
    List (String × α) :=
  match d with
  | [] => [(k, v)]
  | (k₁, v₁) :: t => if k₁ == k then (k, v) :: t else (k₁, v₁) :: dset t k v

/-- Python `d.update(u)`: fold the bindings of `u` into `d` in order. -/
def dUpdate {α : Type} (d u : List (String × α)) : List (String × α) :=
  u.foldl (fun acc p => dset acc p.1 p.2) d

/-- Value of the last binding of `k` in a plain pair list (used to state
"later duplicates overwrite earlier ones"). -/
def dgetLast {α : Type} : List (String × α) → String → Option α
  | [], _ => none
  | (k₁, v₁) :: t, k =>
    oOr (dgetLast t k) (if k₁ == k then some v₁ else none)

theorem dget_dset {α : Type} (d : List (String × α)) (k : String) (v : α)
    (n : String) :
    dget (dset d k v) n = if n = k then some v else dget d n := by
  induction d with
  | nil =>
    by_cases h : n = k
    · subst h; simp [dset, dget]
    · simp [dset, dget, beq_iff_eq, h, Ne.symm h]
  | cons p t ih =>
    obtain ⟨k₁, v₁⟩ := p
    by_cases hk : k₁ = k
    · subst hk
      by_cases h : n = k₁
      · subst h; simp [dset, dget]
      · simp [dset, dget, beq_iff_eq, h, Ne.symm h]
    · by_cases h : n = k₁
      · subst h
        simp [dset, dget, beq_iff_eq, hk]
      · simp [dset, dget, beq_iff_eq, hk, h, Ne.symm h, ih]

theorem dget_dUpdate {α : Type} (u d : List (String × α)) (n : String) :
    dget (dUpdate d u) n = oOr (dgetLast u n) (dget d n) := by
  induction u generalizing d with
  | nil => simp [dUpdate, dgetLast, oOr]
  | cons p t ih =>
    obtain ⟨k, v⟩ := p
    show dget (dUpdate (dset d k v) t) n = _
    rw [ih, dget_dset]
    simp only [dgetLast]
    cases hlast : dgetLast t n with
    | some w => simp [oOr]
    | none =>
      by_cases h : n = k
      · subst h; simp [oOr]
      · simp [oOr, h, beq_iff_eq, Ne.symm h]

theorem dMember_eq_true_iff {α : Type} (d : List (String × α)) (k : String) :
    dMember d k = true ↔ ∃ v, dget d k = some v := by
  simp [dMember, Option.isSome_iff_exists]

/-! ### Executable string operations

The Lean core string functions go through `Substring` byte positions and
do not reduce in the kernel, so the Python string operations used by the
sources are re-implemented over `List Char`. -/

/-- Index of the first occurrence of `pat` in a character list. -/
def subAt (pat : List Char) : List Char → Option Nat
  | [] => if pat.isEmpty then some 0 else none
  | c :: t =>
    if pat.isPrefixOf (c :: t) then some 0 else (subAt pat t).map (· + 1)

/-- Python `pat in s` for strings (substring containment). -/
def pyContains (s pat : String) : Bool :=
  (subAt pat.toList s.toList).isSome

/-- The text after the first occurrence of `pat`, if `pat` occurs. -/
def afterFirst (pat : List Char) : List Char → Option (List Char)
  | [] => if pat.isEmpty then some [] else none
  | c :: t =>
    if pat.isPrefixOf (c :: t) then some ((c :: t).drop pat.length)
    else afterFirst pat t

/-- Python `s.endswith(suffix)`. -/
def pyEndsWith (s suffix : String) : Bool :=
  suffix.toList.reverse.isPrefixOf s.toList.reverse

/-- Python `s.strip()` (whitespace from both ends). -/
def pyStrip (s : String) : String :=
  String.mk
    (((s.toList.dropWhile Char.isWhitespace).reverse.dropWhile
        Char.isWhitespace).reverse)

/-- Python `s.lstrip(c)` for a single strip character. -/
def pyLStripChar (c : Char) (s : String) : String :=
  String.mk (s.toList.dropWhile (· == c))

/-- Python `s.lower()` (sufficient for the ASCII marker words compared
by the sources). -/
def pyLower (s : String) : String :=
  String.mk (s.toList.map Char.toLower)

/-- Python `s.split(sep)` for a one-character separator. -/
def pySplitChar (c : Char) (s : String) : List String :=
  go s.toList []
where
  go : List Char → List Char → List String
    | [], acc => [String.mk acc.reverse]
    | x :: t, acc =>
      if x == c then String.mk acc.reverse :: go t [] else go t (x :: acc)

/-- Python `s.split(c, 1)` on a string known to contain `c`: the pair of
the text before the first `c` and the text after it. -/
def pySplitFirst (c : Char) (s : String) : String × String :=
  (String.mk (s.toList.takeWhile (fun x => !(x == c))),
   String.mk ((s.toList.dropWhile (fun x => !(x == c))).drop 1))

/-! ### JSON values and Python truthiness -/

/-- JSON values, as returned by `response.json()`.  Numbers are modelled
as integers: every numeric field compared or returned by the sources
(`ret`, `code`, quota figures) is an integer sentinel or quota count. -/
inductive Json where
  | null
  | bool (b : Bool)
  | num (n : Int)
  | str (s : String)
  | arr (elems : List Json)
  | obj (fields : List (String × Json))

/-- Python truthiness of a JSON value (`if x:`). -/
def Json.truthy : Json → Bool
  | .null => false
  | .bool b => b
  | .num n => n != 0
  | .str s => s != ""
  | .arr es => !es.isEmpty
  | .obj fs => !fs.isEmpty

/-- Python `==` between a JSON value and an integer literal: `None == n`
is `False`, booleans compare as 0/1, numbers compare numerically. -/
def jsonEqNum (v : Option Json) (n : Int) : Bool :=
  match v with
  | some (.num m) => m == n
  | some (.bool b) => (if b then (1 : Int) else 0) == n
  | _ => false

/-! ### utils/browser_utils.py -/

/-- The runtime type of the `cookies_data` argument of `parse_cookies`:
a dict, a string, or a value of any other type. -/
inductive CookiesData where
  | dict (d : List (String × String))
  | str (s : String)
  | other

/-- Python truthiness of a `cookies_data` value (`if cookies_data:` in
`CheckIn.execute`; non-dict non-str extras are truthy only as far as the
orchestrator guard is concerned, so `other` carries a flag). We only ever
instantiate `other` for the parse result, where Python would reach the
final `return {}` branch. -/
def CookiesData.truthy : CookiesData → Bool
  | .dict d => !d.isEmpty
  | .str s => s != ""
  | .other => true

/-- `parse_cookies` (src/utils/browser_utils.py lines 12-33): a dict is
returned unchanged; a string is split on `;`, each segment containing
`=` is stripped and split at its first `=` into key and value; any other
input yields the empty dict. -/
def parse_cookies : CookiesData → List (String × String)
  | .dict d => d
  | .str s =>
    (pySplitChar ';' s).foldl
      (fun acc cookie =>
        if pyContains cookie "=" then
          let kv := pySplitFirst '=' (pyStrip cookie)
          dset acc kv.1 kv.2
        else acc)
      []
  | .other => []

/-- A browser cookie record as consumed by `filter_cookies`: the result
of `cookie.get("name")`, `cookie.get("value")` and
`cookie.get("domain", "")`, with absent name/value encoded as the empty
string (both are false in the `if cookie_name and cookie_value:` guard,
exactly like `None`). -/
structure CookieRec where
  name : String
  value : String
  domain : String

/-- `urlparse(origin).netloc`, modelled from the Python standard library
for origins of the shape `scheme://host[/...]`: the text between the
first `://` and the next `/`, `?` or `#`; an origin without `://` has an
empty netloc. -/
def urlparseNetloc (url : String) : String :=
  match afterFirst "://".toList url.toList with
  | some rest =>
    String.mk (rest.takeWhile (fun c => !(c == '/' || c == '?' || c == '#')))
  | none => ""

/-- The domain test of `filter_cookies` (src/utils/browser_utils.py
lines 62-69): after removing leading dots, the cookie domain must equal
the provider domain, or be a dot-separated suffix (parent domain) of it,
or have it as a dot-separated suffix (subdomain). -/
def domainMatches (cookieDomain providerDomain : String) : Bool :=
  let nc := pyLStripChar '.' cookieDomain
  let np := pyLStripChar '.' providerDomain
  np == nc || pyEndsWith np ("." ++ nc) || pyEndsWith nc ("." ++ np)

/-- `filter_cookies` (src/utils/browser_utils.py lines 36-86): keep the
cookies with truthy name and value whose domain matches the origin's
netloc, building a dict keyed by cookie name. -/
def filter_cookies (cookies : List CookieRec) (origin : String) :
    List (String × String) :=
  let provider_domain := urlparseNetloc origin
  cookies.foldl
    (fun acc c =>
      if c.name != "" && c.value != "" &&
          domainMatches c.domain provider_domain then
        dset acc c.name c.value
      else acc)
    []

/-! ### utils/get_headers.py -/

/-- A string-valued dict (request headers, cookie jars). -/
abbrev SDict := List (String × String)

/-- First occurrence of `Chrome/` that is followed by at least one digit
or dot, returning that version run — the JS regex
`/Chrome\/([\d.]+)/` evaluated in `get_browser_headers`. -/
def chromeVersionOf : List Char → Option (List Char)
  | [] => none
  | c :: t =>
    if "Chrome/".toList.isPrefixOf (c :: t) then
      let ver := ((c :: t).drop 7).takeWhile (fun x => x.isDigit || x == '.')
      if ver.isEmpty then chromeVersionOf t else some ver
    else chromeVersionOf t

/-- Platform fields derived from the User-Agent in
`get_browser_headers` (src/utils/get_headers.py lines 166-189). -/
structure PlatformInfo where
  name : String
  version : String
  arch : String
  mobile : Bool

/-- Platform detection of `get_browser_headers`. -/
def platformOf (ua : String) : PlatformInfo :=
  if pyContains ua "Windows NT" then ⟨"Windows", "10.0.0", "x86", false⟩
  else if pyContains ua "Macintosh" || pyContains ua "Mac OS X" then
    ⟨"macOS", "15.0.0", "arm", false⟩
  else if pyContains ua "Linux" && !pyContains ua "Android" then
    ⟨"Linux", "6.5.0", "x86", false⟩
  else if pyContains ua "Android" then ⟨"Android", "14.0.0", "x86", true⟩
  else ⟨"Unknown", "10.0.0", "x86", false⟩

/-- `get_browser_headers` (src/utils/get_headers.py lines 116-211) as a
function of the page's `navigator.userAgent`: always the User-Agent;
plus the `sec-ch-ua` Client-Hint family only for Chromium-family
browsers (a Firefox UA, or a UA with no Chrome version, yields no
Client Hints).  The internal `_isFirefox` / `_isChromium` markers are
popped before the dict is returned and are not modelled. -/
def getBrowserHeaders (ua : String) : SDict :=
  if pyContains ua "Firefox" then [("User-Agent", ua)]
  else
    match chromeVersionOf ua.toList with
    | none => [("User-Agent", ua)]
    | some verChars =>
      let ver := String.mk verChars
      let major := String.mk (verChars.takeWhile (fun c => !(c == '.')))
      let p := platformOf ua
      [("User-Agent", ua),
       ("sec-ch-ua",
        "\"Google Chrome\";v=\"" ++ major ++ "\", \"Chromium\";v=\"" ++
          major ++ "\", \"Not A(Brand\";v=\"24\""),
       ("sec-ch-ua-mobile", if p.mobile then "?1" else "?0"),
       ("sec-ch-ua-platform", "\"" ++ p.name ++ "\""),
       ("sec-ch-ua-platform-version", "\"" ++ p.version ++ "\""),
       ("sec-ch-ua-arch", "\"" ++ p.arch ++ "\""),
       ("sec-ch-ua-bitness", "\"64\""),
       ("sec-ch-ua-full-version", "\"" ++ ver ++ "\""),
       ("sec-ch-ua-full-version-list",
        "\"Google Chrome\";v=\"" ++ ver ++ "\", \"Chromium\";v=\"" ++ ver ++
          "\", \"Not A(Brand\";v=\"24.0.0.0\""),
       ("sec-ch-ua-model", "\"\"")]

/-! ### Header construction in CheckIn.execute (src/checkin.py 1397-1443)
and the per-request header sets derived from it -/

/-- The fixed part of the common header set, around the User-Agent. -/
def baseCommonHeaders (ua : String) : SDict :=
  [("Accept", "application/json, text/plain, */*"),
   ("Accept-Language", "en,en-US;q=0.9,zh;q=0.8,en-CN;q=0.7,zh-CN;q=0.6"),
   ("Cache-Control", "no-store"),
   ("Pragma", "no-cache"),
   ("User-Agent", ua),
   ("sec-fetch-dest", "empty"),
   ("sec-fetch-mode", "cors"),
   ("sec-fetch-site", "same-origin")]

/-- The single construction of `common_headers` in `CheckIn.execute`
(src/checkin.py lines 1399-1443).  `uaDraw` is the value
`get_random_user_agent()` would return at the one call site reached in
the chosen branch (each execution calls the generator at most once). -/
def buildCommonHeaders (browserHeaders : Option SDict) (uaDraw : String) :
    SDict :=
  match browserHeaders with
  | some bh =>
    let base := baseCommonHeaders (dgetD bh "User-Agent" uaDraw)
    if dMember bh "sec-ch-ua" then
      dUpdate base
        [("sec-ch-ua", dgetD bh "sec-ch-ua" ""),
         ("sec-ch-ua-mobile", dgetD bh "sec-ch-ua-mobile" "?0"),
         ("sec-ch-ua-platform", dgetD bh "sec-ch-ua-platform" ""),
         ("sec-ch-ua-platform-version",
          dgetD bh "sec-ch-ua-platform-version" ""),
         ("sec-ch-ua-arch", dgetD bh "sec-ch-ua-arch" ""),
         ("sec-ch-ua-bitness", dgetD bh "sec-ch-ua-bitness" ""),
         ("sec-ch-ua-full-version", dgetD bh "sec-ch-ua-full-version" ""),
         ("sec-ch-ua-full-version-list",
          dgetD bh "sec-ch-ua-full-version-list" ""),
         ("sec-ch-ua-model", dgetD bh "sec-ch-ua-model" "\"\"")]
    else base
  | none => baseCommonHeaders uaDraw

/-- The per-request header set built by `check_in_with_cookies` (and
identically by `check_in_with_github` with `api_user = "-1"`):
`common_headers.copy()` plus the provider's user-id header, `Referer`
and `Origin` (src/checkin.py lines 961-964). -/
def perRequestHeaders (common : SDict)
    (apiUserKey apiUser loginUrl origin : String) : SDict :=
  dset (dset (dset common apiUserKey apiUser) "Referer" loginUrl)
    "Origin" origin

/-- The header set of the check-in POST: the per-request headers plus
`Content-Type` and `X-Requested-With` (src/checkin.py lines 740-741). -/
def checkinRequestHeaders (headers : SDict) : SDict :=
  dUpdate headers
    [("Content-Type", "application/json"),
     ("X-Requested-With", "XMLHttpRequest")]

/-- The header set of top-up POSTs (src/checkin.py lines 832-837). -/
def topupRequestHeaders (headers : SDict)
    (origin apiUserKey apiUser : String) : SDict :=
  dUpdate headers
    [("Referer", origin ++ "/console/topup"),
     ("Origin", origin),
     (apiUserKey, apiUser)]

/-- `updated_headers` in `check_in_with_github` (src/checkin.py lines
1123-1126): a copy of the common headers, updated with the OAuth
browser fingerprint only when `signin` returned one (an empty dict is
falsy and performs no update). -/
def githubUpdatedHeaders (common : SDict) (oauthHeaders : Option SDict) :
    SDict :=
  match oauthHeaders with
  | some oh => if oh.isEmpty then common else dUpdate common oh
  | none => common

/-! ### CheckIn.execute_check_in (src/checkin.py 727-796)

The function is embedded in `Except String`: Python expressions that can
raise (`.get` on a non-dict, `in` on a non-string, arithmetic on a
non-number) become monadic steps, and an uncaught exception is the
`.error` case, which the caller's `except Exception` boundary turns into
a generic failure. -/

/-- `x.get(k)` on a value that must be a dict. -/
def pyDictGet (j : Json) (k : String) : Except String (Option Json) :=
  match j with
  | .obj fs => .ok (dget fs k)
  | _ => .error "AttributeError"

/-- `pat in x` on a value that must be a string. -/
def pyInStr (pat : String) (v : Json) : Except String Bool :=
  match v with
  | .str s => .ok (pyContains s pat)
  | _ => .error "TypeError"

/-- `round(x / 500000, 2)` raises unless `x` is numeric (booleans are
numbers in Python); the rounded value itself only feeds a log line. -/
def pyQuotaDiv (v : Json) : Except String Unit :=
  match v with
  | .num _ => .ok ()
  | .bool _ => .ok ()
  | _ => .error "TypeError"

/-- An HTTP response as the embedded functions observe it: the status
code, the body text, and the result of `response_resolve`
(src/utils/http_utils.py 45-97), which is the parsed JSON value or
`none` when the body is not JSON. -/
structure HttpResponse where
  status : Nat
  jsonBody : Option Json
  text : String

/-- The result dict of `execute_check_in`, with one optional field per
key the various return statements populate. -/
structure CheckinResult where
  success : Bool
  message : Option Json := none
  error : Option Json := none
  data : Option Json := none

/-- `message = json_data.get("message", json_data.get("msg", ""))`
(src/checkin.py 765); every lookup here is on a dict, so no step can
raise. -/
def checkinMessageOf (fields : List (String × Json)) : Json :=
  (dget fields "message").getD ((dget fields "msg").getD (.str ""))

/-- The success condition of `execute_check_in` (src/checkin.py
767-773), with Python's left-to-right short-circuit `or`: the two `in`
checks run only when the first three disjuncts are false, and raise
when the message is not a string. -/
def checkinCondEval (fields : List (String × Json)) : Except String Bool :=
  if jsonEqNum (dget fields "ret") 1 then .ok true
  else if jsonEqNum (dget fields "code") 0 then .ok true
  else if ((dget fields "success").getD .null).truthy then .ok true
  else
    match pyInStr "已经签到" (checkinMessageOf fields) with
    | .error e => .error e
    | .ok true => .ok true
    | .ok false => pyInStr "签到成功" (checkinMessageOf fields)

/-- The success branch's data extraction (src/checkin.py 774-783):
`check_in_data = json_data.get("data", {})`, then the `checkin_date`
and `quota_awarded` lookups and the quota division feeding the log
line — each of which raises when `data` is not an object or a truthy
`quota_awarded` is not numeric. -/
def checkinDataStep (fields : List (String × Json)) : Except String Json :=
  let checkInData := (dget fields "data").getD (.obj [])
  match pyDictGet checkInData "checkin_date" with
  | .error e => .error e
  | .ok _ =>
    match pyDictGet checkInData "quota_awarded" with
    | .error e => .error e
    | .ok qaOpt =>
      let qa := qaOpt.getD (.num 0)
      if qa.truthy then
        match pyQuotaDiv qa with
        | .error e => .error e
        | .ok _ => .ok checkInData
      else .ok checkInData

/-- `execute_check_in` (src/checkin.py 727-796) as a function of the
resolved check-in URL and the response to the check-in POST.  A JSON
body that is not an object raises at the first `.get` (line 765), which
the embedding reports as the error case. -/
def executeCheckIn (checkInUrl : Option String) (resp : HttpResponse) :
    Except String CheckinResult :=
  if checkInUrl.getD "" == "" then
    .ok { success := false,
          error := some (.str "No check-in URL configured") }
  else if resp.status == 200 || resp.status == 400 then
    match resp.jsonBody with
    | none =>
      if pyContains (pyLower resp.text) "success" then
        .ok { success := true, message := some (.str "Check-in successful") }
      else
        .ok { success := false,
              error := some (.str "Invalid response format") }
    | some (.obj fields) =>
      (match checkinCondEval fields with
       | .error e => .error e
       | .ok true =>
         match checkinDataStep fields with
         | .error e => .error e
         | .ok checkInData =>
           .ok { success := true,
                 message := some
                   (if (checkinMessageOf fields).truthy then
                     checkinMessageOf fields
                    else .str "Check-in successful"),
                 data := some checkInData }
       | .ok false =>
         .ok { success := false,
               error := some ((dget fields "msg").getD
                 ((dget fields "message").getD (.str "Unknown error"))) })
    | some _ => .error "AttributeError"
  else
    .ok { success := false,
          error := some (.str ("HTTP " ++ toString resp.status)) }

/-! ### CheckIn.execute_topup (src/checkin.py 798-931)

The `get_cdk` producer (synchronous or asynchronous generator) is
modelled as the finite list of `(ok, data)` pairs it yields; the `async
for` and plain `for` branches consume it through the identical
`process_cdk_result` body, so one loop covers both.  The `topup` HTTP
call is an input `Nat → TopupCallResult` giving the outcome of the n-th
submission. -/

/-- The fields of the `topup` result dict that `process_cdk_result`
reads: `success`, `already_used` and `error`. -/
structure TopupCallResult where
  success : Bool
  alreadyUsed : Bool := false
  error : Option String := none

/-- The `results` dict of `execute_topup` (its `topup_count` equals the
local counter of the same name at every loop boundary). -/
structure TopupSummary where
  success : Bool
  topupCount : Nat
  topupSuccessCount : Nat
  error : String
deriving DecidableEq, Repr

/-- The consumption loop of `execute_topup`: `process_cdk_result`
applied to each yielded pair until it returns False. -/
def runTopupLoop (env : Nat → TopupCallResult) :
    TopupSummary → List (Bool × SDict) → TopupSummary
  | st, [] => st
  | st, (ok, data) :: rest =>
    if !ok then
      { st with success := false,
                error := dgetD data "error" "Failed to get CDK" }
    else
      let cdk := dgetD data "code" ""
      if cdk == "" then runTopupLoop env st rest
      else
        let res := env st.topupCount
        let st₂ := { st with topupCount := st.topupCount + 1 }
        if res.success then
          runTopupLoop env
            { st₂ with topupSuccessCount := st₂.topupSuccessCount + 1 } rest
        else
          { st₂ with success := false,
                     error := res.error.getD "Topup failed" }

/-- `execute_topup` (src/checkin.py 798-931): immediately successful
with zero submissions when the provider has no `get_cdk` source,
otherwise the consumption loop over the producer's yields. -/
def executeTopup (hasGetCdk : Bool) (producer : List (Bool × SDict))
    (env : Nat → TopupCallResult) : TopupSummary :=
  if !hasGetCdk then ⟨true, 0, 0, ""⟩
  else runTopupLoop env ⟨true, 0, 0, ""⟩ producer

/-! ### CheckIn.check_in_with_cookies (src/checkin.py 933-1029) -/

/-- A one-key error dict `{"error": s}`. -/
def errObj (s : String) : Json := .obj [("error", .str s)]

/-- The slice of `ProviderConfig` (src/utils/config.py 38-190) that
drives the session bootstrap: origin, check-in path, whether a check-in
status query function is configured (`check_in_status` being `True` or
a callable), top-up path, and whether a `get_cdk` source exists. -/
structure ProviderSlice where
  origin : String
  checkInPath : Option String
  hasStatusFunc : Bool
  topupPath : Option String
  hasGetCdk : Bool

/-- `ProviderConfig.needs_manual_check_in`: the check-in path is not
`None` (an empty string still counts, exactly like the source's
`is not None`). -/
def needsManualCheckIn (pc : ProviderSlice) : Bool :=
  pc.checkInPath.isSome

/-- `ProviderConfig.get_check_in_url` for string check-in paths (a
callable `check_in_path`, the provider-supplied signed-URL builder, is
an external and not modelled): `None` when the path is falsy, otherwise
origin ++ path. -/
def getCheckInUrl (pc : ProviderSlice) : Option String :=
  match pc.checkInPath with
  | none => none
  | some p => if p == "" then none else some (pc.origin ++ p)

/-- `ProviderConfig.needs_manual_topup`: both `topup_path` and
`get_cdk` are not `None`. -/
def needsManualTopup (pc : ProviderSlice) : Bool :=
  pc.topupPath.isSome && pc.hasGetCdk

/-- The external observations `check_in_with_cookies` makes:
the check-in-status query result, the response to the check-in POST,
and the `get_user_info` result dict (`none` for the defensive
no-info branch). -/
structure BootstrapEnv where
  checkedInToday : Bool
  checkinResponse : HttpResponse
  userInfo : Option (List (String × Json))

/-- `check_in_with_cookies` (src/checkin.py 933-1029) as a function of
the provider slice and the observed effects.  Its single `except`
boundary converts an exception raised by `execute_check_in` into the
generic process-error result. -/
def checkInWithCookies (pc : ProviderSlice) (env : BootstrapEnv)
    (producer : List (Bool × SDict)) (topupEnv : Nat → TopupCallResult) :
    Bool × Json :=
  let runCheckin : Option (Bool × Json) :=
    match executeCheckIn (getCheckInUrl pc) env.checkinResponse with
    | .error _ =>
      some (false, errObj "Error occurred during check-in process")
    | .ok r =>
      if !r.success then
        some (false, .obj [("error", r.error.getD (.str "Check-in failed"))])
      else none
  let checkinStep : Option (Bool × Json) :=
    if needsManualCheckIn pc then
      if pc.hasStatusFunc then
        if env.checkedInToday then none else runCheckin
      else runCheckin
    else none
  match checkinStep with
  | some r => r
  | none =>
    let topupStep : Option (Bool × Json) :=
      if needsManualTopup pc then
        let t := executeTopup pc.hasGetCdk producer topupEnv
        if !t.success then
          some (false,
            errObj (if t.error != "" then t.error else "Topup failed"))
        else none
      else none
    match topupStep with
    | some r => r
    | none =>
      match env.userInfo with
      | some fs =>
        if !fs.isEmpty && ((dget fs "success").getD .null).truthy then
          (true, .obj fs)
        else if !fs.isEmpty then (false, errObj "Failed to get user info")
        else (false, errObj "No user info available")
      | none => (false, errObj "No user info available")

/-! ### CheckIn.execute (src/checkin.py 1357-1548) -/

/-- One OAuth sub-account (username + password), from
`OAuthAccountConfig` (src/utils/config.py 192-204). -/
structure OAuthAccount where
  username : String
  password : String

/-- The slice of `AccountConfig` (src/utils/config.py 207-269) that
`CheckIn.execute` reads: raw cookies data, the `api_user` identifier,
and the GitHub / Linux.do sub-account lists (`None` and `[]` behave
identically under the `if github_accounts:` guards, so both map to
`[]`). -/
structure AccountCfg where
  cookies : CookiesData
  apiUser : String
  github : List OAuthAccount
  linuxDo : List OAuthAccount

/-- Outcome of one authentication-method call
(`check_in_with_cookies` / `check_in_with_github` /
`check_in_with_linuxdo`): the returned `(success, info)` pair, or an
exception reaching the per-method `except` clause. -/
inductive MethodOutcome where
  | ok (success : Bool) (info : Json)
  | raise (msg : String)

/-- The method calls `CheckIn.execute` makes, as functions of the
bypass cookies and common headers handed to them (`cookiesCall` takes
the merged `{**bypass_cookies, **user_cookies}` dict). -/
structure MethodsEnv where
  cookiesCall : SDict → SDict → MethodOutcome
  githubCall : Nat → SDict → SDict → MethodOutcome
  linuxdoCall : Nat → SDict → SDict → MethodOutcome

/-- The cookies-method attempt (src/checkin.py 1451-1476): exactly one
result entry, whatever happens. -/
def cookiesAttempt (cfg : AccountCfg) (env : MethodsEnv)
    (bypassCookies common : SDict) : String × Bool × Json :=
  let user_cookies := parse_cookies cfg.cookies
  if user_cookies.isEmpty then
    ("cookies", false, errObj "Invalid cookies format")
  else if cfg.apiUser == "" then
    ("cookies", false, errObj "API user identifier not found")
  else
    let all_cookies := dUpdate bypassCookies user_cookies
    match env.cookiesCall all_cookies common with
    | .raise e => ("cookies", false, errObj e)
    | .ok s info => ("cookies", s, info)

/-- The label of the idx-th sub-account of an OAuth provider:
indexed only when more than one account is configured
(src/checkin.py 1481, 1507). -/
def oauthLabel (base : String) (count idx : Nat) : String :=
  if count > 1 then base ++ "[" ++ toString idx ++ "]" else base

/-- One OAuth-method attempt (src/checkin.py 1479-1531): exactly one
result entry, whatever happens. -/
def oauthAttempt (base : String) (count idx : Nat) (acct : OAuthAccount)
    (call : MethodOutcome) (incompleteMsg : String) :
    String × Bool × Json :=
  let label := oauthLabel base count idx
  if acct.username == "" || acct.password == "" then
    (label, false, errObj incompleteMsg)
  else
    match call with
    | .raise e => (label, false, errObj e)
    | .ok s info => (label, s, info)

/-- The method loop of `CheckIn.execute` (src/checkin.py 1451-1531):
cookies first (when configured), then every GitHub sub-account in
order, then every Linux.do sub-account in order; each attempted method
appends exactly one `(method, success, detail)` entry. -/
def executeMethods (cfg : AccountCfg) (env : MethodsEnv)
    (bypassCookies common : SDict) : List (String × Bool × Json) :=
  (if cfg.cookies.truthy then [cookiesAttempt cfg env bypassCookies common]
   else []) ++
  cfg.github.enum.map (fun p =>
    oauthAttempt "github" cfg.github.length p.1 p.2
      (env.githubCall p.1 bypassCookies common)
      "Incomplete GitHub account information") ++
  cfg.linuxDo.enum.map (fun p =>
    oauthAttempt "linux.do" cfg.linuxDo.length p.1 p.2
      (env.linuxdoCall p.1 bypassCookies common)
      "Incomplete Linux.do account information")

/-- Number of configured authentication methods of an account. -/
def numMethods (cfg : AccountCfg) : Nat :=
  (if cfg.cookies.truthy then 1 else 0) + cfg.github.length +
    cfg.linuxDo.length

/-- `ProviderConfig.bypass_method`. -/
inductive BypassStrategy where
  | noBypass
  | wafCookies
  | cfClearance

/-- The bypass phase of `CheckIn.execute` (src/checkin.py 1361-1395).
`wafResult` is what `get_waf_cookies_with_browser` produces (a cookie
dict, `None`, or an exception escaping it, e.g. a browser-launch
failure outside its inner `try`); `cfResult` likewise for
`get_cf_clearance`, whose call — unlike the WAF call — sits inside a
`try/except` in `execute`. -/
def executeBypass (strategy : BypassStrategy)
    (wafResult : Except String (Option SDict))
    (cfResult : Except String (Option SDict × Option SDict)) :
    Except String (SDict × Option SDict) :=
  match strategy with
  | .noBypass => .ok ([], none)
  | .wafCookies =>
    match wafResult with
    | .error e => .error e
    | .ok r =>
      .ok ((match r with
            | some c => if c.isEmpty then [] else c
            | none => []), none)
  | .cfClearance =>
    match cfResult with
    | .error _ => .ok ([], none)
    | .ok (copt, hopt) =>
      .ok ((match copt with
            | some c => if c.isEmpty then [] else c
            | none => []),
           (match hopt with
            | some h => if h.isEmpty then none else some h
            | none => none))

/-- `CheckIn.execute` (src/checkin.py 1357-1548) end to end: bypass
phase, one construction of the common headers, then the method loop.
The returned triple is the bypass cookie set and common header set the
methods receive, and the aggregated result list. -/
def executeFull (strategy : BypassStrategy)
    (wafResult : Except String (Option SDict))
    (cfResult : Except String (Option SDict × Option SDict))
    (uaDraw : String) (cfg : AccountCfg) (env : MethodsEnv) :
    Except String (SDict × SDict × List (String × Bool × Json)) :=
  match executeBypass strategy wafResult cfResult with
  | .error e => .error e
  | .ok (bypassCookies, browserHeaders) =>
    let common := buildCommonHeaders browserHeaders uaDraw
    .ok (bypassCookies, common, executeMethods cfg env bypassCookies common)

/-! ### GitHubSignIn.signin, final phase (src/sign_in_with_github.py
313-388) -/

/-- `urlparse(url).query`: the text after the first `?` of the part
before the first `#` (modelled from the Python standard library; quoting
is not involved at this stage). -/
def urlQuery (url : String) : String :=
  match afterFirst "?".toList (url.toList.takeWhile (fun c => !(c == '#'))) with
  | some q => String.mk q
  | none => ""

/-- `urllib.parse.parse_qs` with default arguments (modelled from the
Python standard library): split the query on `&`, keep the segments
with an `=` and a non-empty value, and group values per key in order.
Percent-decoding is not modelled (the callback parameters compared here
contain no escapes). -/
def parse_qs (query : String) : List (String × List String) :=
  (pySplitChar '&' query).foldl
    (fun acc seg =>
      if seg == "" then acc
      else if pyContains seg "=" then
        let kv := pySplitFirst '=' seg
        if kv.2 == "" then acc
        else dset acc kv.1 (dgetD acc kv.1 [] ++ [kv.2])
      else acc)
    []

/-- The three shapes of `signin`'s result dict: application cookies
plus user id, raw OAuth callback query parameters, or an error. -/
inductive SigninData where
  | authed (cookies : SDict) (apiUser : Json)
  | params (qs : List (String × List String))
  | failure (error : String)

/-- The result phase of `GitHubSignIn.signin`
(src/sign_in_with_github.py 313-388), as a function of what the browser
session produced: the provider origin, the `localStorage.user.id` value
(`none` when storage had no user object), the final page URL, the
context cookies, whether a Cloudflare interstitial was detected during
the call, and the page's `navigator.userAgent` (from which
`get_browser_headers` would compute the fingerprint). -/
def signinFinish (origin : String) (apiUser : Option Json)
    (finalUrl : String) (contextCookies : List CookieRec)
    (cfDetected : Bool) (pageUA : String) :
    Bool × SigninData × Option SDict :=
  let fingerprint :=
    if cfDetected then some (getBrowserHeaders pageUA) else none
  if (apiUser.getD .null).truthy then
    (true, .authed (filter_cookies contextCookies origin)
      (apiUser.getD .null), fingerprint)
  else
    let query_params := parse_qs (urlQuery finalUrl)
    if dMember query_params "code" then
      (true, .params query_params, fingerprint)
    else
      (false, .failure "GitHub OAuth failed - no code in callback", none)

/-! ### main (src/main.py 37-194) -/

/-- What one account contributes to the top-level aggregation: the
provider lookup failed, the account's processing raised (caught by the
per-account `except`), or `CheckIn.execute` returned a result list
whose per-method `user_info` dicts main then reads (success infos carry
the display/quota fields `get_user_info` produces, so result processing
completes). -/
inductive AccountRun where
  | providerMissing
  | crashed
  | ran (results : List (String × Bool × Option (List (String × Json))))

/-- The per-method success test of main (src/main.py 101):
`success and user_info and user_info.get("success")`. -/
def methodCounted (e : String × Bool × Option (List (String × Json))) :
    Bool :=
  e.2.1 &&
    (match e.2.2 with
     | some fs => !fs.isEmpty && ((dget fs "success").getD .null).truthy
     | none => false)

/-- One iteration of main's account loop on the counters: an account
with a missing provider or a caught exception contributes nothing;
otherwise `total_count += len(results)` and `success_count` grows by
the methods passing the success test (src/main.py 87-103). -/
def mainStep (acc : Nat × Nat) (r : AccountRun) : Nat × Nat :=
  match r with
  | .providerMissing => acc
  | .crashed => acc
  | .ran results =>
    (acc.1 + results.countP methodCounted, acc.2 + results.length)

/-- The `success_count` / `total_count` accumulation of main's account
loop (src/main.py 61-146). -/
def mainCounts (runs : List AccountRun) : Nat × Nat :=
  runs.foldl mainStep (0, 0)

/-- The three-way overall signal of the notification summary
(src/main.py 176-181). -/
inductive OverallSignal where
  | allSuccess
  | partialSuccess
  | allFailed
deriving DecidableEq, Repr

/-- `if success_count == total_count ... elif success_count > 0 ...
else ...` (src/main.py 176-181). -/
def mainClassification (s t : Nat) : OverallSignal :=
  if s == t then .allSuccess
  else if s > 0 then .partialSuccess
  else .allFailed

/-- `sys.exit(0 if success_count > 0 else 1)` (src/main.py 194). -/
def mainExitCode (s : Nat) : Nat :=
  if s > 0 then 0 else 1

/-- The top-level aggregation: overall signal and process exit code
computed from the per-account, per-method outcomes. -/
def mainRun (runs : List AccountRun) : OverallSignal × Nat :=
  let c := mainCounts runs
  (mainClassification c.1 c.2, mainExitCode c.1)

/-! ### Specification-side definitions

The definitions below restate, in the claims' own vocabulary, what the
embedded functions are compared against. -/

/-- Claim C9's description of the string case of `parse_cookies`: one
key/value pair per semicolon-separated segment containing `=`, the
stripped segment split at its first `=`. -/
def cookiePairs (s : String) : SDict :=
  ((pySplitChar ';' s).filter (fun cookie => pyContains cookie "=")).map
    (fun cookie => pySplitFirst '=' (pyStrip cookie))

/-- Claim C5 as stated: the result of `filter_cookies` holds exactly
the (name, value) pairs of the cookies whose domain is equal to, a
parent domain of, or a subdomain of the origin's host. -/
def filterCookiesClaim (cs : List CookieRec) (origin : String) : Prop :=
  ∀ n v, dget (filter_cookies cs origin) n = some v ↔
    ∃ c ∈ cs, c.name = n ∧ c.value = v ∧
      domainMatches c.domain (urlparseNetloc origin) = true

/-- The cookies `filter_cookies` actually keeps: non-empty name and
value, matching domain. -/
def goodPairs (cs : List CookieRec) (origin : String) : SDict :=
  (cs.filter (fun c =>
    c.name != "" && c.value != "" &&
      domainMatches c.domain (urlparseNetloc origin))).map
    (fun c => (c.name, c.value))

/-- Claim C1's success condition on a JSON check-in body: `ret == 1`,
`code == 0`, a truthy `success` flag, or a message containing the
already-checked-in / check-in-succeeded locale phrases. -/
def checkinSuccessCond (fields : List (String × Json)) : Prop :=
  jsonEqNum (dget fields "ret") 1 = true ∨
  jsonEqNum (dget fields "code") 0 = true ∨
  ((dget fields "success").getD .null).truthy = true ∨
  (∃ s, checkinMessageOf fields = .str s ∧
    (pyContains s "已经签到" = true ∨ pyContains s "签到成功" = true))

/-- Well-formedness of the body's `data` field under which the success
branch completes without raising: absent, or an object whose
`quota_awarded`, when truthy, is numeric. -/
def dataFieldOk (fields : List (String × Json)) : Bool :=
  match dget fields "data" with
  | none => true
  | some (.obj dfs) =>
    (match dget dfs "quota_awarded" with
     | none => true
     | some v =>
       !v.truthy ||
         (match v with
          | .num _ => true
          | .bool _ => true
          | _ => false))
  | some _ => false

/-- Number of non-empty-code submissions a producer prefix triggers. -/
def codeCount (items : List (Bool × SDict)) : Nat :=
  (items.filter (fun it => dgetD it.2 "code" "" != "")).length

/-- A reference to one configured authentication method of an account,
carrying the sub-account it uses. -/
inductive MethodRef where
  | cookies
  | github (idx : Nat) (acct : OAuthAccount)
  | linuxdo (idx : Nat) (acct : OAuthAccount)

/-- The configured methods of an account, in the order `execute`
attempts them: cookies first, then GitHub sub-accounts, then Linux.do
sub-accounts. -/
def methodsOf (cfg : AccountCfg) : List MethodRef :=
  (if cfg.cookies.truthy then [.cookies] else []) ++
  cfg.github.enum.map (fun p => .github p.1 p.2) ++
  cfg.linuxDo.enum.map (fun p => .linuxdo p.1 p.2)

/-- The single result entry one method attempt produces. -/
def attemptOf (cfg : AccountCfg) (env : MethodsEnv)
    (bypassCookies common : SDict) : MethodRef → String × Bool × Json
  | .cookies => cookiesAttempt cfg env bypassCookies common
  | .github i a =>
    oauthAttempt "github" cfg.github.length i a
      (env.githubCall i bypassCookies common)
      "Incomplete GitHub account information"
  | .linuxdo i a =>
    oauthAttempt "linux.do" cfg.linuxDo.length i a
      (env.linuxdoCall i bypassCookies common)
      "Incomplete Linux.do account information"

/-- Two method environments make the same call for method `m`. -/
def envAgreeAt (m : MethodRef) (e₁ e₂ : MethodsEnv) : Prop :=
  match m with
  | .cookies => e₁.cookiesCall = e₂.cookiesCall
  | .github i _ => e₁.githubCall i = e₂.githubCall i
  | .linuxdo i _ => e₁.linuxdoCall i = e₂.linuxdoCall i

/-- The per-method result list an account contributed. -/
def resultsOf : AccountRun →
    List (String × Bool × Option (List (String × Json)))
  | .ran rs => rs
  | _ => []

/-! ### Supporting lemmas -/

theorem oOr_none {α : Type} (x : Option α) : oOr x none = x := by
  cases x <;> rfl

/-- A fold that conditionally inserts into a dict equals one bulk
update with the kept, transformed elements. -/
theorem foldl_guard_dset {β : Type} (g : β → Bool) (f : β → String × String)
    (xs : List β) (acc : SDict) :
    xs.foldl (fun a x => if g x then dset a (f x).1 (f x).2 else a) acc =
      dUpdate acc ((xs.filter g).map f) := by
  induction xs generalizing acc with
  | nil => rfl
  | cons x t ih =>
    by_cases h : g x
    · simp only [List.foldl_cons, h, if_true, List.filter_cons, List.map_cons]
      rw [ih]
      rfl
    · simp only [List.foldl_cons, h, if_false, List.filter_cons]
      simp only [Bool.false_eq_true, if_false]
      exact ih acc

/-! ### Claim theorems -/

/-- C9: `parse_cookies` is total over its public input shapes: a dict is
returned unchanged; a string yields one entry per semicolon-separated
segment containing `=` — the stripped segment split at its first `=`
into key and value, with later duplicate keys overwriting earlier ones
(segments without `=` are dropped); any other input yields the empty
dict. -/
theorem parse_cookies_total_spec :
    (∀ d, parse_cookies (.dict d) = d) ∧
    (∀ s k, dget (parse_cookies (.str s)) k = dgetLast (cookiePairs s) k) ∧
    parse_cookies .other = [] := by
  refine ⟨fun d => rfl, fun s k => ?_, rfl⟩
  have h1 : parse_cookies (.str s) = dUpdate [] (cookiePairs s) := by
    show (pySplitChar ';' s).foldl _ [] = _
    exact foldl_guard_dset (fun cookie => pyContains cookie "=")
      (fun cookie => pySplitFirst '=' (pyStrip cookie)) (pySplitChar ';' s) []
  rw [h1, dget_dUpdate]
  have h0 : dget ([] : SDict) k = none := rfl
  rw [h0, oOr_none]

/-- C5 as stated is false: a cookie whose domain matches the origin's
host but whose value is empty is dropped by `filter_cookies`, not
returned. -/
theorem filter_cookies_claim_counterexample :
    ¬ filterCookiesClaim [⟨"session", "", "example.com"⟩]
      "https://example.com" := by
  intro h
  have h2 := (h "session" "").mpr
    ⟨⟨"session", "", "example.com"⟩, by simp, rfl, rfl, by rfl⟩
  have h3 : dget (filter_cookies [⟨"session", "", "example.com"⟩]
      "https://example.com") "session" = none := rfl
  rw [h3] at h2
  exact Option.noConfusion h2

/-- C5, amended: `filter_cookies(cookies, origin)` returns exactly the
(name, value) pairs of the cookies with non-empty name and value whose
domain (after stripping leading dots) is equal to, a parent domain of,
or a subdomain of origin's host — later cookies with the same name
overwriting earlier ones — and excludes all others. -/
theorem filter_cookies_amended (cs : List CookieRec) (origin n : String) :
    dget (filter_cookies cs origin) n = dgetLast (goodPairs cs origin) n := by
  have h1 : filter_cookies cs origin = dUpdate [] (goodPairs cs origin) := by
    show cs.foldl _ [] = _
    exact foldl_guard_dset
      (fun c => c.name != "" && c.value != "" &&
        domainMatches c.domain (urlparseNetloc origin))
      (fun c => (c.name, c.value)) cs []
  rw [h1, dget_dUpdate]
  have h0 : dget ([] : SDict) n = none := rfl
  rw [h0, oOr_none]

/-- Consuming a prefix of ok-elements whose submissions all succeed
advances both counters by the number of non-empty codes and leaves the
success flag and error untouched. -/
theorem runTopupLoop_ok_init (env : Nat → TopupCallResult)
    (init : List (Bool × SDict)) :
    ∀ (rest : List (Bool × SDict)) (st : TopupSummary),
      (∀ it ∈ init, it.1 = true) →
      (∀ i, st.topupCount ≤ i → i < st.topupCount + codeCount init →
        (env i).success = true) →
      runTopupLoop env st (init ++ rest) =
        runTopupLoop env
          { st with topupCount := st.topupCount + codeCount init,
                    topupSuccessCount :=
                      st.topupSuccessCount + codeCount init } rest := by
  induction init with
  | nil =>
    intro rest st _ _
    simp [codeCount]
  | cons it t ih =>
    intro rest st hok henv
    obtain ⟨ok, data⟩ := it
    obtain ⟨su, tc, tsc, er⟩ := st
    have hoktrue : ok = true := hok (ok, data) (by simp)
    subst hoktrue
    by_cases hc : dgetD data "code" "" = ""
    · have hcc : codeCount ((true, data) :: t) = codeCount t := by
        simp [codeCount, List.filter_cons, hc]
      rw [hcc]
      show runTopupLoop env ⟨su, tc, tsc, er⟩ ((true, data) :: (t ++ rest)) =
        _
      rw [show runTopupLoop env ⟨su, tc, tsc, er⟩
            ((true, data) :: (t ++ rest)) =
          runTopupLoop env ⟨su, tc, tsc, er⟩ (t ++ rest) by
        simp [runTopupLoop, hc]]
      exact ih rest ⟨su, tc, tsc, er⟩ (fun x hx => hok x (by simp [hx]))
        (fun i h₁ h₂ => henv i h₁ (by rw [hcc]; exact h₂))
    · have hcc : codeCount ((true, data) :: t) = codeCount t + 1 := by
        simp [codeCount, List.filter_cons, hc]
      have hsucc : (env tc).success = true :=
        henv tc le_rfl (by simp [hcc])
      show runTopupLoop env ⟨su, tc, tsc, er⟩ ((true, data) :: (t ++ rest)) =
        _
      rw [show runTopupLoop env ⟨su, tc, tsc, er⟩
            ((true, data) :: (t ++ rest)) =
          runTopupLoop env ⟨su, tc + 1, tsc + 1, er⟩ (t ++ rest) by
        simp [runTopupLoop, hc, hsucc]]
      rw [ih rest ⟨su, tc + 1, tsc + 1, er⟩
        (fun x hx => hok x (by simp [hx]))
        (fun i h₁ h₂ => henv i
          (by
            have h₁' : tc + 1 ≤ i := h₁
            show tc ≤ i
            omega)
          (by
            have h₂' : i < tc + 1 + codeCount t := h₂
            show i < tc + codeCount ((true, data) :: t)
            rw [hcc]
            omega))]
      rw [hcc]
      have e₁ : tc + 1 + codeCount t = tc + (codeCount t + 1) := by omega
      have e₂ : tsc + 1 + codeCount t = tsc + (codeCount t + 1) := by omega
      rw [show ({ success := su, topupCount := tc + 1, topupSuccessCount :=
            tsc + 1, error := er } : TopupSummary).topupCount = tc + 1 from
          rfl]
      simp only [e₁, e₂]

/-- C3 as stated is false: the loop stops at the *first* `(False, ...)`
element, so a producer whose last element is `(False, {"error": "x"})`
but which contains an earlier stop element reports that earlier error,
not `"x"`. -/
theorem executeTopup_claim_counterexample :
    executeTopup true [(false, [("error", "y")]), (false, [("error", "x")])]
        (fun _ => ⟨true, false, none⟩) = ⟨false, 0, 0, "y"⟩ ∧
      ("y" : String) ≠ "x" := ⟨rfl, by decide⟩

/-- C3, amended: for a producer consisting of ok-elements followed by a
final `(False, data)` element, when every submission the prefix
triggers succeeds, `execute_topup` stops at that element — ignoring any
elements after it — and returns `success=False`, the stop element's
error message, and `topup_count` equal to the number of non-empty-code
submissions before the stop (empty codes are skipped without
counting). -/
theorem executeTopup_amended (init tail : List (Bool × SDict))
    (stopData : SDict) (env : Nat → TopupCallResult)
    (hok : ∀ it ∈ init, it.1 = true)
    (henv : ∀ i, i < codeCount init → (env i).success = true) :
    executeTopup true (init ++ (false, stopData) :: tail) env =
      ⟨false, codeCount init, codeCount init,
       dgetD stopData "error" "Failed to get CDK"⟩ := by
  show runTopupLoop env ⟨true, 0, 0, ""⟩ (init ++ (false, stopData) :: tail) =
    _
  rw [runTopupLoop_ok_init env init ((false, stopData) :: tail)
    ⟨true, 0, 0, ""⟩ hok (fun i h₁ h₂ => henv i (by simpa using h₂))]
  simp [runTopupLoop]

/-- Witness for C3's amended theorem: one real code, one empty code and
a trailing never-consumed element around the stop. -/
theorem executeTopup_amended_witness :
    executeTopup true
        [(true, [("code", "K1")]), (true, [("code", "")]),
         (false, [("error", "x")]), (true, [("code", "K2")])]
        (fun _ => ⟨true, false, none⟩) = ⟨false, 1, 1, "x"⟩ := by
  have h := executeTopup_amended
    [(true, [("code", "K1")]), (true, [("code", "")])]
    [(true, [("code", "K2")])] [("error", "x")]
    (fun _ => ⟨true, false, none⟩)
    (by intro it hit; fin_cases hit <;> rfl)
    (by intro i _; rfl)
  simpa using h

/-- C10: a provider without a `get_cdk` source makes `execute_topup` a
successful no-op (success, zero submissions, empty error), and the
session bootstrap's result is independent of the top-up inputs: no
authentication method can fail because of top-up. -/
theorem executeTopup_no_cdk_noop (pc : ProviderSlice)
    (h : pc.hasGetCdk = false) :
    needsManualTopup pc = false ∧
    (∀ producer env,
      executeTopup pc.hasGetCdk producer env = ⟨true, 0, 0, ""⟩) ∧
    (∀ benv p₁ t₁ p₂ t₂,
      checkInWithCookies pc benv p₁ t₁ = checkInWithCookies pc benv p₂ t₂) := by
  refine ⟨by simp [needsManualTopup, h],
    fun producer env => by simp [executeTopup, h],
    fun benv p₁ t₁ p₂ t₂ => ?_⟩
  unfold checkInWithCookies
  simp [needsManualTopup, h]

/-- Witness for C10: a concrete provider (standard check-in, top-up path
present, no `get_cdk`), a failing producer and a failing top-up
endpoint; `execute_topup` is still the successful no-op. -/
theorem executeTopup_no_cdk_noop_witness :
    executeTopup
        (ProviderSlice.hasGetCdk
          ⟨"https://kfc-api.sxxe.net", some "/api/user/checkin", true,
           some "/api/user/topup", false⟩)
        [(false, [("error", "fail")])] (fun _ => ⟨false, false, some "boom"⟩) =
      ⟨true, 0, 0, ""⟩ :=
  (executeTopup_no_cdk_noop
    ⟨"https://kfc-api.sxxe.net", some "/api/user/checkin", true,
     some "/api/user/topup", false⟩ rfl).2.1
    [(false, [("error", "fail")])] (fun _ => ⟨false, false, some "boom"⟩)

/-- C7 as stated is false for the `waf_cookies` strategy: an exception
escaping the WAF-cookie acquirer (here a browser-launch failure) is not
caught inside `CheckIn.execute`, so the account's authentication
methods are never attempted. -/
theorem executeBypass_claim_counterexample :
    executeFull .wafCookies (.error "Browser launch failed")
        (.ok (none, none)) "UA" ⟨.str "k=v", "123", [], []⟩
        ⟨fun _ _ => .ok true (.obj []), fun _ _ _ => .ok true (.obj []),
         fun _ _ _ => .ok true (.obj [])⟩ =
      .error "Browser launch failed" := rfl

/-- C7, amended: for the `cf_clearance` strategy, a bypass acquirer that
raises or returns no cookies degrades to an empty bypass-cookie set and
the authentication methods still run; for the `waf_cookies` strategy the
same holds when the acquirer returns `None`, while an exception escaping
it aborts the account (caught only at main's per-account boundary). -/
theorem executeBypass_amended (uaDraw e : String) (hopt : Option SDict)
    (wafR : Except String (Option SDict))
    (cfR : Except String (Option SDict × Option SDict))
    (cfg : AccountCfg) (env : MethodsEnv) :
    (executeFull .cfClearance wafR (.error e) uaDraw cfg env =
      .ok ([], buildCommonHeaders none uaDraw,
        executeMethods cfg env [] (buildCommonHeaders none uaDraw))) ∧
    (∃ common, executeFull .cfClearance wafR (.ok (none, hopt)) uaDraw cfg
        env = .ok ([], common, executeMethods cfg env [] common)) ∧
    (executeFull .wafCookies (.ok none) cfR uaDraw cfg env =
      .ok ([], buildCommonHeaders none uaDraw,
        executeMethods cfg env [] (buildCommonHeaders none uaDraw))) := by
  refine ⟨rfl, ?_, rfl⟩
  cases hopt with
  | none => exact ⟨buildCommonHeaders none uaDraw, rfl⟩
  | some h =>
    by_cases hh : h.isEmpty
    · refine ⟨buildCommonHeaders none uaDraw, ?_⟩
      simp [executeFull, executeBypass, hh]
    · refine ⟨buildCommonHeaders (some h) uaDraw, ?_⟩
      simp [executeFull, executeBypass, hh]

/-- C6: when no user id is readable but the callback URL carries a
`code` query parameter, `signin` succeeds with the full query-parameter
map (so `code`, `state`, and all other parameters), returning
fingerprint headers exactly when a Cloudflare challenge was observed
during the call. -/
theorem signinFinish_code_state (origin : String) (apiUser : Option Json)
    (finalUrl : String) (contextCookies : List CookieRec) (cf : Bool)
    (ua : String)
    (hNoUser : (apiUser.getD .null).truthy = false)
    (hCode : dMember (parse_qs (urlQuery finalUrl)) "code" = true) :
    signinFinish origin apiUser finalUrl contextCookies cf ua =
      (true, .params (parse_qs (urlQuery finalUrl)),
       if cf then some (getBrowserHeaders ua) else none) := by
  unfold signinFinish
  simp [hNoUser, hCode]

/-- Witness for C6 at the spec's scenario `?code=abc&state=xyz`, with
and without an observed Cloudflare challenge. -/
theorem signinFinish_code_state_witness :
    signinFinish "https://app.example.com" none
        "https://app.example.com/oauth/github?code=abc&state=xyz" []
        false "UA0" =
      (true, .params [("code", ["abc"]), ("state", ["xyz"])], none) ∧
    signinFinish "https://app.example.com" none
        "https://app.example.com/oauth/github?code=abc&state=xyz" []
        true "UA0" =
      (true, .params [("code", ["abc"]), ("state", ["xyz"])],
       some (getBrowserHeaders "UA0")) := by
  constructor
  · rw [signinFinish_code_state "https://app.example.com" none
      "https://app.example.com/oauth/github?code=abc&state=xyz" [] false
      "UA0" rfl rfl]
    rfl
  · rw [signinFinish_code_state "https://app.example.com" none
      "https://app.example.com/oauth/github?code=abc&state=xyz" [] true
      "UA0" rfl rfl]
    rfl

/-! Lemmas about the captured fingerprint headers. -/

theorem getBrowserHeaders_ua (ua : String) :
    dget (getBrowserHeaders ua) "User-Agent" = some ua := by
  unfold getBrowserHeaders
  by_cases hf : pyContains ua "Firefox"
  · simp [hf, dget]
  · cases hc : chromeVersionOf ua.toList with
    | none => simp [hf, hc, dget]
    | some v => simp [hf, hc, dget]

theorem getBrowserHeaders_ua_last (ua : String) :
    dgetLast (getBrowserHeaders ua) "User-Agent" = some ua := by
  unfold getBrowserHeaders
  by_cases hf : pyContains ua "Firefox"
  · simp only [hf, if_true]
    rfl
  · cases hc : chromeVersionOf ua.toList with
    | none => simp only [hf, hc, if_false, Bool.false_eq_true]; rfl
    | some v => simp only [hf, hc, if_false, Bool.false_eq_true]; rfl

theorem getBrowserHeaders_not_empty (ua : String) :
    (getBrowserHeaders ua).isEmpty = false := by
  unfold getBrowserHeaders
  by_cases hf : pyContains ua "Firefox"
  · simp [hf]
  · cases hc : chromeVersionOf ua.toList with
    | none => simp [hf, hc]
    | some v => simp [hf, hc]

theorem hintsLast_ua (v₁ v₂ v₃ v₄ v₅ v₆ v₇ v₈ v₉ : String) :
    dgetLast
      [("sec-ch-ua", v₁), ("sec-ch-ua-mobile", v₂),
       ("sec-ch-ua-platform", v₃), ("sec-ch-ua-platform-version", v₄),
       ("sec-ch-ua-arch", v₅), ("sec-ch-ua-bitness", v₆),
       ("sec-ch-ua-full-version", v₇), ("sec-ch-ua-full-version-list", v₈),
       ("sec-ch-ua-model", v₉)] "User-Agent" = none := rfl

theorem hintsLast_secchua (v₁ v₂ v₃ v₄ v₅ v₆ v₇ v₈ v₉ : String) :
    dgetLast
      [("sec-ch-ua", v₁), ("sec-ch-ua-mobile", v₂),
       ("sec-ch-ua-platform", v₃), ("sec-ch-ua-platform-version", v₄),
       ("sec-ch-ua-arch", v₅), ("sec-ch-ua-bitness", v₆),
       ("sec-ch-ua-full-version", v₇), ("sec-ch-ua-full-version-list", v₈),
       ("sec-ch-ua-model", v₉)] "sec-ch-ua" = some v₁ := rfl

/-- C4: the common header set of an account run is built exactly once —
from the captured fingerprint when one exists, otherwise from the one
random User-Agent drawn for the run — and every per-request header set
is derived from it without regenerating the User-Agent: the derivations
preserve the common set's User-Agent, Client-Hint headers appear in the
common set only when the capture contained them (in which case the
User-Agent is the captured one, not the random one), and an OAuth
fingerprint update replaces the User-Agent only with the captured
browser value. -/
theorem fingerprint_consistency
    (ua uaDraw apiUser apiUserKey loginUrl origin : String) (common : SDict)
    (hkey : apiUserKey ≠ "User-Agent") :
    dget (buildCommonHeaders none uaDraw) "User-Agent" = some uaDraw ∧
    dMember (buildCommonHeaders none uaDraw) "sec-ch-ua" = false ∧
    dget (buildCommonHeaders (some (getBrowserHeaders ua)) uaDraw)
        "User-Agent" = some ua ∧
    dMember (buildCommonHeaders (some (getBrowserHeaders ua)) uaDraw)
        "sec-ch-ua" = dMember (getBrowserHeaders ua) "sec-ch-ua" ∧
    dget (perRequestHeaders common apiUserKey apiUser loginUrl origin)
        "User-Agent" = dget common "User-Agent" ∧
    dget (checkinRequestHeaders common) "User-Agent" =
      dget common "User-Agent" ∧
    dget (topupRequestHeaders common origin apiUserKey apiUser)
        "User-Agent" = dget common "User-Agent" ∧
    githubUpdatedHeaders common none = common ∧
    dget (githubUpdatedHeaders common (some (getBrowserHeaders ua)))
        "User-Agent" = some ua ∧
    (∀ strategy wafR cfR cfg env bc ch res,
      executeFull strategy wafR cfR uaDraw cfg env = .ok (bc, ch, res) →
      ∃ bh, executeBypass strategy wafR cfR = .ok (bc, bh) ∧
        ch = buildCommonHeaders bh uaDraw ∧
        res = executeMethods cfg env bc ch) := by
  have hbase : dgetD (getBrowserHeaders ua) "User-Agent" uaDraw = ua := by
    simp [dgetD, getBrowserHeaders_ua]
  refine ⟨rfl, rfl, ?_, ?_, ?_, ?_, ?_, rfl, ?_, ?_⟩
  · unfold buildCommonHeaders
    dsimp only
    rw [hbase]
    by_cases hm : dMember (getBrowserHeaders ua) "sec-ch-ua"
    · simp only [hm, if_true]
      rw [dget_dUpdate, hintsLast_ua]
      rfl
    · simp only [hm, Bool.false_eq_true, if_false]
      rfl
  · unfold buildCommonHeaders
    dsimp only
    rw [hbase]
    by_cases hm : dMember (getBrowserHeaders ua) "sec-ch-ua"
    · simp only [hm, if_true]
      rw [dMember, dget_dUpdate, hintsLast_secchua]
      rfl
    · simp only [hm, Bool.false_eq_true, if_false]
      rfl
  · unfold perRequestHeaders
    rw [dget_dset, if_neg (by decide), dget_dset, if_neg (by decide),
      dget_dset, if_neg (Ne.symm hkey)]
  · unfold checkinRequestHeaders
    rw [dget_dUpdate,
      show dgetLast
        [("Content-Type", "application/json"),
         ("X-Requested-With", "XMLHttpRequest")] "User-Agent" = none from rfl]
    rfl
  · unfold topupRequestHeaders
    rw [dget_dUpdate]
    have hlast : dgetLast
        [("Referer", origin ++ "/console/topup"), ("Origin", origin),
         (apiUserKey, apiUser)] "User-Agent" = none := by
      simp [dgetLast, oOr, hkey]
    rw [hlast]
    rfl
  · unfold githubUpdatedHeaders
    dsimp only
    rw [getBrowserHeaders_not_empty]
    simp only [Bool.false_eq_true, if_false]
    rw [dget_dUpdate, getBrowserHeaders_ua_last]
    rfl
  · intro strategy wafR cfR cfg env bc ch res h
    unfold executeFull at h
    cases hb : executeBypass strategy wafR cfR with
    | error e => rw [hb] at h; exact absurd h (by simp)
    | ok p =>
      obtain ⟨bc', bh⟩ := p
      rw [hb] at h
      simp only [Except.ok.injEq, Prod.mk.injEq] at h
      obtain ⟨h1, h2, h3⟩ := h
      subst h1
      subst h2
      subst h3
      exact ⟨bh, rfl, rfl, rfl⟩

/-- Witness for C4: a concrete Chromium capture, random draw and common
header set. -/
theorem fingerprint_consistency_witness :
    dget (buildCommonHeaders none "R-UA") "User-Agent" = some "R-UA" ∧
    dget (perRequestHeaders [("User-Agent", "U0")] "new-api-user" "7"
        "https://anyrouter.top/login" "https://anyrouter.top")
        "User-Agent" = some "U0" := by
  have h := fingerprint_consistency
    "Mozilla/5.0 (Macintosh) Chrome/138.0.0.0 Safari/537.36" "R-UA" "7"
    "new-api-user" "https://anyrouter.top/login" "https://anyrouter.top"
    [("User-Agent", "U0")] (by decide)
  refine ⟨h.1, ?_⟩
  rw [h.2.2.2.2.1]
  rfl

/-- C2: for an account with at least two configured authentication
methods, `execute` attempts every configured method — cookies first,
then each GitHub sub-account in order, then each Linux.do sub-account
in order — each attempt contributes exactly one (method, success,
detail) entry at its position, and each entry depends only on that
method's own call outcome, so a failure or exception in one method
never prevents the next from being attempted (in particular, when one
method fails and another succeeds, both outcomes are in the list). -/
theorem executeMethods_spec (cfg : AccountCfg) (env : MethodsEnv)
    (bypassCookies common : SDict) (h2 : 2 ≤ numMethods cfg) :
    (executeMethods cfg env bypassCookies common).length = numMethods cfg ∧
    executeMethods cfg env bypassCookies common =
      (methodsOf cfg).map (attemptOf cfg env bypassCookies common) ∧
    (∀ m ∈ methodsOf cfg, ∀ env₂, envAgreeAt m env env₂ →
      attemptOf cfg env bypassCookies common m =
        attemptOf cfg env₂ bypassCookies common m) := by
  refine ⟨?_, ?_, ?_⟩
  · unfold executeMethods numMethods
    cases cfg.cookies.truthy <;>
      simp [List.length_append, List.enum_length] <;> omega
  · unfold executeMethods methodsOf
    simp only [List.map_append, List.map_map]
    cases cfg.cookies.truthy <;> simp [attemptOf] <;> rfl
  · intro m _ env₂ hag
    cases m with
    | cookies =>
      dsimp only [attemptOf, envAgreeAt] at hag ⊢
      unfold cookiesAttempt
      rw [hag]
    | github i a =>
      dsimp only [attemptOf, envAgreeAt] at hag ⊢
      rw [hag]
    | linuxdo i a =>
      dsimp only [attemptOf, envAgreeAt] at hag ⊢
      rw [hag]

/-- Witness for C2: two configured methods (cookies + one GitHub
account) where the cookies call fails and the GitHub call succeeds. -/
theorem executeMethods_spec_witness :
    2 ≤ numMethods ⟨.str "session=s1", "42", [⟨"gh-user", "gh-pass"⟩], []⟩ ∧
    (executeMethods ⟨.str "session=s1", "42", [⟨"gh-user", "gh-pass"⟩], []⟩
      ⟨fun _ _ => .ok false (errObj "bad cookies"),
       fun _ _ _ => .ok true (.obj [("success", .bool true)]),
       fun _ _ _ => .raise "unused"⟩ [] []).length =
      numMethods ⟨.str "session=s1", "42", [⟨"gh-user", "gh-pass"⟩], []⟩ :=
  ⟨by decide,
   (executeMethods_spec ⟨.str "session=s1", "42", [⟨"gh-user", "gh-pass"⟩], []⟩
     ⟨fun _ _ => .ok false (errObj "bad cookies"),
      fun _ _ _ => .ok true (.obj [("success", .bool true)]),
      fun _ _ _ => .raise "unused"⟩ [] [] (by decide)).1⟩

/-! Lemmas about main's counter accumulation. -/

theorem foldl_mainStep_shift (runs : List AccountRun) :
    ∀ a b : Nat,
      runs.foldl mainStep (a, b) =
        (a + (runs.foldl mainStep (0, 0)).1,
         b + (runs.foldl mainStep (0, 0)).2) := by
  induction runs with
  | nil => intro a b; simp
  | cons r t ih =>
    intro a b
    cases r with
    | providerMissing =>
      simp only [List.foldl_cons, mainStep]
      exact ih a b
    | crashed =>
      simp only [List.foldl_cons, mainStep]
      exact ih a b
    | ran rs =>
      simp only [List.foldl_cons, mainStep]
      rw [ih (a + rs.countP methodCounted) (b + rs.length),
        ih (0 + rs.countP methodCounted) (0 + rs.length)]
      simp only [Prod.mk.injEq]
      omega

theorem mainCounts_cons (r : AccountRun) (t : List AccountRun) :
    mainCounts (r :: t) =
      ((resultsOf r).countP methodCounted + (mainCounts t).1,
       (resultsOf r).length + (mainCounts t).2) := by
  unfold mainCounts
  simp only [List.foldl_cons]
  cases r with
  | providerMissing => simp [mainStep, resultsOf, foldl_mainStep_shift]
  | crashed => simp [mainStep, resultsOf, foldl_mainStep_shift]
  | ran rs =>
    simp only [mainStep, resultsOf]
    rw [foldl_mainStep_shift t (0 + rs.countP methodCounted)
      (0 + rs.length)]
    simp only [Prod.mk.injEq]
    omega

theorem mainCounts_le (runs : List AccountRun) :
    (mainCounts runs).1 ≤ (mainCounts runs).2 := by
  induction runs with
  | nil => exact le_rfl
  | cons r t ih =>
    rw [mainCounts_cons]
    have h : (resultsOf r).countP methodCounted ≤ (resultsOf r).length :=
      List.countP_le_length methodCounted
    dsimp only
    omega

theorem mainCounts_eq_iff (runs : List AccountRun) :
    (mainCounts runs).1 = (mainCounts runs).2 ↔
      ∀ r ∈ runs, ∀ e ∈ resultsOf r, methodCounted e = true := by
  induction runs with
  | nil => simp [mainCounts]
  | cons r t ih =>
    rw [mainCounts_cons, List.forall_mem_cons]
    have h1 : (resultsOf r).countP methodCounted ≤ (resultsOf r).length :=
      List.countP_le_length methodCounted
    have h2 := mainCounts_le t
    have h3 : (resultsOf r).countP methodCounted = (resultsOf r).length ↔
        ∀ e ∈ resultsOf r, methodCounted e = true := List.countP_eq_length
    dsimp only
    constructor
    · intro h
      exact ⟨h3.mp (by omega), ih.mp (by omega)⟩
    · intro h
      have := h3.mpr h.1
      have := ih.mpr h.2
      omega

theorem mainCounts_pos_iff (runs : List AccountRun) :
    0 < (mainCounts runs).1 ↔
      ∃ r ∈ runs, ∃ e ∈ resultsOf r, methodCounted e = true := by
  induction runs with
  | nil => simp [mainCounts]
  | cons r t ih =>
    rw [mainCounts_cons]
    have h1 : 0 < (resultsOf r).countP methodCounted ↔
        ∃ e ∈ resultsOf r, methodCounted e = true := List.countP_pos_iff
    dsimp only
    constructor
    · intro h
      by_cases hc : 0 < (resultsOf r).countP methodCounted
      · exact ⟨r, by simp, h1.mp hc⟩
      · obtain ⟨x, hx, he⟩ := ih.mp (by omega)
        exact ⟨x, by simp [hx], he⟩
    · rintro ⟨x, hx, he⟩
      rcases List.mem_cons.mp hx with hx | hx
      · subst hx
        have := h1.mpr he
        omega
      · have := ih.mpr ⟨x, hx, he⟩
        omega

/-- C8: the top-level run's three-way signal is fully successful
exactly when every attempted method across every account passed main's
success test, partially successful exactly when at least one did but
not all, total failure exactly when none did but methods were
attempted; the process exit code is 0 exactly when at least one method
succeeded. -/
theorem mainRun_aggregation (runs : List AccountRun) :
    ((mainRun runs).1 = .allSuccess ↔
      ∀ r ∈ runs, ∀ e ∈ resultsOf r, methodCounted e = true) ∧
    ((mainRun runs).1 = .partialSuccess ↔
      ((∃ r ∈ runs, ∃ e ∈ resultsOf r, methodCounted e = true) ∧
       ¬ ∀ r ∈ runs, ∀ e ∈ resultsOf r, methodCounted e = true)) ∧
    ((mainRun runs).1 = .allFailed ↔
      ((¬ ∃ r ∈ runs, ∃ e ∈ resultsOf r, methodCounted e = true) ∧
       ¬ ∀ r ∈ runs, ∀ e ∈ resultsOf r, methodCounted e = true)) ∧
    ((mainRun runs).2 = 0 ↔
      ∃ r ∈ runs, ∃ e ∈ resultsOf r, methodCounted e = true) := by
  have hle := mainCounts_le runs
  have heq := mainCounts_eq_iff runs
  have hpos := mainCounts_pos_iff runs
  by_cases hst : (mainCounts runs).1 = (mainCounts runs).2
  · have hall := heq.mp hst
    have hcls : (mainRun runs).1 = .allSuccess := by
      unfold mainRun mainClassification
      dsimp only
      rw [if_pos (by simp [hst])]
    by_cases hp : 0 < (mainCounts runs).1
    · have hexit : (mainRun runs).2 = 0 := by
        unfold mainRun mainExitCode
        dsimp only
        rw [if_pos hp]
      refine ⟨iff_of_true hcls hall, ?_, ?_,
        iff_of_true hexit (hpos.mp hp)⟩
      · rw [hcls]
        exact iff_of_false (by decide) (fun hq => hq.2 hall)
      · rw [hcls]
        exact iff_of_false (by decide) (fun hq => hq.2 hall)
    · have hexit : (mainRun runs).2 = 1 := by
        unfold mainRun mainExitCode
        dsimp only
        rw [if_neg hp]
      refine ⟨iff_of_true hcls hall, ?_, ?_, ?_⟩
      · rw [hcls]
        exact iff_of_false (by decide) (fun hq => hq.2 hall)
      · rw [hcls]
        exact iff_of_false (by decide) (fun hq => hq.2 hall)
      · rw [hexit]
        exact iff_of_false (by decide) (fun h => hp (hpos.mpr h))
  · have hnall : ¬ ∀ r ∈ runs, ∀ e ∈ resultsOf r, methodCounted e = true :=
      fun h => hst (heq.mpr h)
    by_cases hp : 0 < (mainCounts runs).1
    · have hcls : (mainRun runs).1 = .partialSuccess := by
        unfold mainRun mainClassification
        dsimp only
        rw [if_neg (by simp [hst]), if_pos hp]
      have hexit : (mainRun runs).2 = 0 := by
        unfold mainRun mainExitCode
        dsimp only
        rw [if_pos hp]
      refine ⟨?_, iff_of_true hcls ⟨hpos.mp hp, hnall⟩, ?_,
        iff_of_true hexit (hpos.mp hp)⟩
      · rw [hcls]
        exact iff_of_false (by decide) (fun h => hnall h)
      · rw [hcls]
        exact iff_of_false (by decide) (fun h => h.1 ⟨_, (hpos.mp hp).choose_spec.1, (hpos.mp hp).choose_spec.2⟩)
    · have hnpos :
          ¬ ∃ r ∈ runs, ∃ e ∈ resultsOf r, methodCounted e = true :=
        fun h => hp (hpos.mpr h)
      have hcls : (mainRun runs).1 = .allFailed := by
        unfold mainRun mainClassification
        dsimp only
        rw [if_neg (by simp [hst]), if_neg hp]
      have hexit : (mainRun runs).2 = 1 := by
        unfold mainRun mainExitCode
        dsimp only
        rw [if_neg hp]
      refine ⟨?_, ?_, iff_of_true hcls ⟨hnpos, hnall⟩, ?_⟩
      · rw [hcls]
        exact iff_of_false (by decide) (fun h => hnall h)
      · rw [hcls]
        exact iff_of_false (by decide) (fun h => hnpos h.1)
      · rw [hexit]
        exact iff_of_false (by decide) (fun h => hnpos h)

/-! Lemmas for the check-in executor. -/

theorem checkinCondEval_of_cond (fields : List (String × Json))
    (hcond : checkinSuccessCond fields) :
    checkinCondEval fields = .ok true := by
  unfold checkinCondEval
  by_cases h1 : jsonEqNum (dget fields "ret") 1 = true
  · simp [h1]
  · by_cases h2 : jsonEqNum (dget fields "code") 0 = true
    · simp [h1, h2]
    · by_cases h3 : ((dget fields "success").getD .null).truthy = true
      · simp [h1, h2, h3]
      · rcases hcond with h | h | h | ⟨s, hmsg, hsub⟩
        · exact absurd h h1
        · exact absurd h h2
        · exact absurd h h3
        · simp only [h1, h2, h3, Bool.false_eq_true, if_false]
          rw [hmsg]
          rcases hsub with hs | hs
          · simp [pyInStr, hs]
          · by_cases hfirst : pyContains s "已经签到" = true
            · simp [pyInStr, hfirst]
            · simp [pyInStr, hfirst, hs]

theorem checkinDataStep_ok (fields : List (String × Json))
    (hdata : dataFieldOk fields = true) :
    checkinDataStep fields = .ok ((dget fields "data").getD (.obj [])) := by
  unfold checkinDataStep
  rcases hd : dget fields "data" with _ | dv
  · simp [hd, pyDictGet, Json.truthy, dget]
  · unfold dataFieldOk at hdata
    rw [hd] at hdata
    cases dv with
    | null => simp at hdata
    | bool b => simp at hdata
    | num n => simp at hdata
    | str s => simp at hdata
    | arr es => simp at hdata
    | obj dfs =>
      dsimp only at hdata
      simp only [hd, Option.getD]
      rcases hq : dget dfs "quota_awarded" with _ | v
      · simp [pyDictGet, hq, Json.truthy]
      · rw [hq] at hdata
        by_cases hvt : v.truthy
        · simp only [hvt, Bool.not_true, Bool.false_or] at hdata
          cases v with
          | num n => simp [pyDictGet, hq, hvt, pyQuotaDiv]
          | bool b => simp [pyDictGet, hq, hvt, pyQuotaDiv]
          | null => simp [Json.truthy] at hvt
          | str s => simp at hdata
          | arr es => simp at hdata
          | obj fs2 => simp at hdata
        · simp [pyDictGet, hq, hvt]

/-- C1 as stated is false: an HTTP 200 response whose JSON body has
`ret == 1` but a non-object `data` field makes `execute_check_in` raise
(the `.get` on `data` feeding the success log line), so no
`success=True` result is returned. -/
theorem executeCheckIn_claim_counterexample :
    executeCheckIn (some "https://anyrouter.top/api/user/sign_in")
        ⟨200, some (.obj [("ret", .num 1), ("data", .num 5)]), ""⟩ =
      .error "AttributeError" := rfl

/-- C1, amended: for every response to the check-in POST with status
200 or 400 whose body parses as a JSON object whose `data` field, when
present, is an object with a numeric (or absent / non-truthy)
`quota_awarded`, `execute_check_in` returns success together with the
body's message whenever the body has `ret == 1`, `code == 0`, a truthy
`success` flag, or a message containing the already-checked-in or
check-in-succeeded locale phrase; the message returned is the body's
whenever the body's message is a non-empty string. -/
theorem executeCheckIn_amended (url tx : String) (st : Nat)
    (fields : List (String × Json))
    (hurl : url ≠ "")
    (hstatus : st = 200 ∨ st = 400)
    (hcond : checkinSuccessCond fields)
    (hdata : dataFieldOk fields = true) :
    executeCheckIn (some url) ⟨st, some (.obj fields), tx⟩ =
      .ok { success := true,
            message := some
              (if (checkinMessageOf fields).truthy then
                checkinMessageOf fields
               else .str "Check-in successful"),
            data := some ((dget fields "data").getD (.obj [])) } ∧
    (∀ s, checkinMessageOf fields = .str s → s ≠ "" →
      executeCheckIn (some url) ⟨st, some (.obj fields), tx⟩ =
        .ok { success := true, message := some (.str s),
              data := some ((dget fields "data").getD (.obj [])) }) := by
  have hu : (url == "") = false := by simp [hurl]
  have hst : (st == 200 || st == 400) = true := by
    rcases hstatus with h | h <;> simp [h]
  have heval : executeCheckIn (some url) ⟨st, some (.obj fields), tx⟩ =
      .ok { success := true,
            message := some
              (if (checkinMessageOf fields).truthy then
                checkinMessageOf fields
               else .str "Check-in successful"),
            data := some ((dget fields "data").getD (.obj [])) } := by
    unfold executeCheckIn
    simp only [Option.getD, hu, Bool.false_eq_true, if_false, hst, if_true,
      checkinCondEval_of_cond fields hcond, checkinDataStep_ok fields hdata]
  refine ⟨heval, fun s hmsg hne => ?_⟩
  rw [heval, hmsg]
  have ht : (Json.str s).truthy = true := by simp [Json.truthy, hne]
  rw [if_pos ht]

/-- Witness for C1's amended theorem: the spec's HTTP-400 scenario
`{"ret":1,"message":"签到成功"}` and an already-checked-in message. -/
theorem executeCheckIn_amended_witness :
    executeCheckIn (some "https://anyrouter.top/api/user/sign_in")
        ⟨400, some (.obj [("ret", .num 1), ("message", .str "签到成功")]),
         ""⟩ =
      .ok { success := true, message := some (.str "签到成功"),
            data := some (.obj []) } ∧
    executeCheckIn (some "https://anyrouter.top/api/user/sign_in")
        ⟨200, some (.obj [("message", .str "今日已经签到")]), ""⟩ =
      .ok { success := true, message := some (.str "今日已经签到"),
            data := some (.obj []) } := by
  constructor
  · exact (executeCheckIn_amended "https://anyrouter.top/api/user/sign_in"
      "" 400 [("ret", .num 1), ("message", .str "签到成功")]
      (by decide) (Or.inr rfl) (Or.inl (by rfl)) (by rfl)).2
      "签到成功" rfl (by decide)
  · exact (executeCheckIn_amended "https://anyrouter.top/api/user/sign_in"
      "" 200 [("message", .str "今日已经签到")]
      (by decide) (Or.inl rfl)
      (Or.inr (Or.inr (Or.inr ⟨"今日已经签到", rfl, Or.inl (by rfl)⟩)))
      (by rfl)).2 "今日已经签到" rfl (by decide)

end NewapiCheckin
